import Mathlib

/-!
Shallow embedding of `trackmania_rl/agents/noisy_iqn_pal2.py`.

Tensors are embedded as functions from flat row/column indices to rationals;
machine floats become exact rationals, so algebraic identities of the source
hold exactly.  A tensor of shape `(batch_size * iqn_n, n_actions)` becomes
`ℕ → ℕ → ℚ`, with the row layout of the source (`concat.repeat(num_quantiles, 1)`
tiles the batch, so flat row `r` holds batch item `r % B` and quantile `r / B`).
Random draws (the CUDA uniform sampler used for `tau`, python's `random`, and
the factorized noise of the noisy layers) are passed in explicitly as streams
`ℕ → ℚ` or as drawn values, which makes the data flow of randomness visible.
The convolutional image head and the dense float feature extractor are
deterministic parameterized maps whose internals no claim touches; they are
embedded as opaque function fields (their trained weights folded in).
`cos (π * x)` is transcendental, hence not a rational function; it is embedded
as the function field `cosPi` of the agent.
Integer index tensors carry their rank and dtype (`IndexTensor`), and
`torch.gather` is embedded as the partial `torchGather`, which raises — yields
`none` — unless the index has the same rank as the input and dtype int64, as
torch requires; the `actions` tensor of line 168 is 1-D int32, so the gathers
of lines 215, 230 and 245 raise and every `train_on_batch` call fails there.
-/

/-- LeakyReLU with torch's default negative slope 0.01 (`torch.nn.LeakyReLU`). -/
def leakyRelu (x : ℚ) : ℚ := if 0 ≤ x then x else x / 100

/-- Maximum of `f 0, …, f (n-1)`, the embedding of `torch.max(.., dim=..)[0]` and
`np.max`; for `n = 0` torch raises, callers guard with `0 < n`. -/
def tmax (n : ℕ) (f : ℕ → ℚ) : ℚ := ((List.range n).map f).foldl max (f 0)

/-- Index of the first occurrence of the maximum among `f 0, …, f (n-1)`, the
embedding of `np.argmax` and `torch.argmax` (both return the lowest index on
ties). -/
def npArgmax (n : ℕ) (f : ℕ → ℚ) : ℕ :=
  (List.range n).foldl (fun a i => if f a < f i then i else a) 0

/-- Specification predicate: `j` is the first index attaining the maximum of
`f` on `[0, n)` — the contract of `np.argmax` with lowest-index tie-breaking. -/
def isFirstMax (n : ℕ) (f : ℕ → ℚ) (j : ℕ) : Prop :=
  j < n ∧ f j = tmax n f ∧ ∀ i, i < j → f i < f j

/-- Specification predicate: `v` is the maximum value of `f` on `[0, n)`. -/
def isMaxOf (n : ℕ) (f : ℕ → ℚ) (v : ℚ) : Prop :=
  (∀ i, i < n → f i ≤ v) ∧ ∃ i, i < n ∧ f i = v

/-- Embedding of python's `random.randrange(lo, hi)`: the uniform draw is the
explicit argument `draw`, reduced into the range `[lo, hi)`. -/
def randrange (lo hi draw : ℕ) : ℕ := lo + draw % (hi - lo)

/-- The integer dtypes that matter for `torch.gather` index tensors:
`torch.int` is int32, `torch.argmax` produces int64, and `gather` accepts only
int64. -/
inductive DType
  | int32
  | int64
deriving DecidableEq

/-- An integer index tensor with the metadata `torch.gather` validates: its
rank (number of dimensions) and its dtype, besides its values (as a function
of the flat row index; all index tensors of this step have a single column). -/
structure IndexTensor where
  rank : ℕ
  dtype : DType
  val : ℕ → ℕ

/-- Embedding of `torch.gather(input, 1, index)` on a 2-D input of `rows` rows
and `width` columns: it raises a RuntimeError — `none` — unless the index
tensor has the same rank as the input, has dtype int64, and all its entries
are within the gathered dimension; otherwise it yields the gathered column per
row. -/
def torchGather (inputRank rows width : ℕ) (input : ℕ → ℕ → ℚ) (idx : IndexTensor) :
    Option (ℕ → ℚ) :=
  if idx.rank = inputRank ∧ idx.dtype = DType.int64 ∧ (∀ r, r < rows → idx.val r < width)
  then some (fun r => input r (idx.val r))
  else none

/-- A fresh factorized-noise draw for one noisy layer: the two independent
noise vectors of length `d_in` and `d_out`. -/
structure LayerNoise where
  epsIn : ℕ → ℚ
  epsOut : ℕ → ℚ

/-- Modelled from the spec: the repository's `noisy_linear.NoisyLinear` layer
(its file is not under `src/`; §4.1 of the spec describes it).  It holds a mean
weight matrix, a noise-scale weight matrix, a mean bias vector, a noise-scale
bias vector, and the cached sampled noise (`wEps`, `bEps`) regenerated by
`reset_noise`. -/
structure NoisyLinear where
  inDim : ℕ
  wMu : ℕ → ℕ → ℚ
  wSig : ℕ → ℕ → ℚ
  bMu : ℕ → ℚ
  bSig : ℕ → ℚ
  wEps : ℕ → ℕ → ℚ
  bEps : ℕ → ℚ

/-- Modelled from the spec: `NoisyLinear.forward` computes
`(mean_weight + noise_scale_weight * weight_noise) · x + (mean_bias + noise_scale_bias * bias_noise)`
on the frozen cached noise. -/
def NoisyLinear.forward (l : NoisyLinear) (x : ℕ → ℚ) : ℕ → ℚ := fun o =>
  (∑ i in Finset.range l.inDim, (l.wMu o i + l.wSig o i * l.wEps o i) * x i)
    + (l.bMu o + l.bSig o * l.bEps o)

/-- Modelled from the spec: `NoisyLinear.reset_noise` draws two fresh noise
vectors, transforms each entry by the sign-preserving square-root nonlinearity
`f` (transcendental, passed as an explicit function), outer-products them to
form the weight noise, and uses the output-side vector for the bias noise. -/
def NoisyLinear.resetNoise (l : NoisyLinear) (f : ℚ → ℚ) (n : LayerNoise) : NoisyLinear :=
  { l with wEps := fun o i => f (n.epsOut o) * f (n.epsIn i),
           bEps := fun o => f (n.epsOut o) }

/-- Fresh noise draws for the four noisy layers of one agent, in the order
`A_head[0], A_head[2], V_head[0], V_head[2]` of `Agent.reset_noise`. -/
structure AgentNoise where
  a1 : LayerNoise
  a2 : LayerNoise
  v1 : LayerNoise
  v2 : LayerNoise

/-- The value network of `noisy_iqn_pal2.Agent`.  `imgHead` and
`floatFeatureExtractor` stand for the deterministic convolutional stack and the
dense float stack (weights folded in); `cosPi x` stands for `cos (π * x)`;
the remaining fields mirror `Agent.__init__`. -/
structure Agent where
  imgHead : (ℕ → ℚ) → ℕ → ℚ
  floatFeatureExtractor : (ℕ → ℚ) → ℕ → ℚ
  convHeadOutputDim : ℕ
  iqnFcW : ℕ → ℕ → ℚ
  iqnFcB : ℕ → ℚ
  aHead1 : NoisyLinear
  aHead2 : NoisyLinear
  vHead1 : NoisyLinear
  vHead2 : NoisyLinear
  iqnEmbeddingDimension : ℕ
  nActions : ℕ
  cosPi : ℚ → ℚ
  floatInputsMean : ℕ → ℚ
  floatInputsStd : ℕ → ℚ

/-- Line 82-83 of the source: when `tau` is `None` a fresh uniform draw (the
stream `rng`) is used, otherwise the supplied `tau` is used as given. -/
def tauUsed (tau : Option (ℕ → ℚ)) (rng : ℕ → ℚ) : ℕ → ℚ := tau.getD rng

/-- Lines 78-81: normalize the image (`(img - 128) / 128`) and the float inputs
(`(x - mean) / std`), run both encoders and concatenate along the feature
axis; entry `(b, i)` of the result. -/
def Agent.concatFeat (m : Agent) (img fl : ℕ → ℕ → ℚ) : ℕ → ℕ → ℚ := fun b i =>
  if i < m.convHeadOutputDim then
    m.imgHead (fun p => (img b p - 128) / 128) i
  else
    m.floatFeatureExtractor (fun k => (fl b k - m.floatInputsMean k) / m.floatInputsStd k)
      (i - m.convHeadOutputDim)

/-- Lines 84-94: the cosine harmonic embedding `cos(i · π · tau)` for
`i = 1 … iqn_embedding_dimension`, projected through `iqn_fc` and a LeakyReLU;
entry `(r, o)` for flat row `r` and output feature `o`. -/
def Agent.quantileNet (m : Agent) (tau : ℕ → ℚ) : ℕ → ℕ → ℚ := fun r o =>
  leakyRelu ((∑ j in Finset.range m.iqnEmbeddingDimension,
      m.iqnFcW o j * m.cosPi (((j : ℚ) + 1) * tau r)) + m.iqnFcB o)

/-- Lines 96-98: the state embedding is tiled `num_quantiles` times along the
batch axis (flat row `r` holds batch item `r % B`) and multiplied elementwise
by the quantile embedding. -/
def Agent.gated (m : Agent) (B : ℕ) (img fl : ℕ → ℕ → ℚ) (tau : ℕ → ℚ) : ℕ → ℕ → ℚ :=
  fun r i => m.concatFeat img fl (r % B) i * m.quantileNet tau r i

/-- Line 100: the advantage head `A_head = NoisyLinear ∘ LeakyReLU ∘ NoisyLinear`
applied to the gated embedding; entry `(r, a)`. -/
def Agent.aOut (m : Agent) (B : ℕ) (img fl : ℕ → ℕ → ℚ) (tau : ℕ → ℚ) : ℕ → ℕ → ℚ :=
  fun r a => m.aHead2.forward (fun h => leakyRelu (m.aHead1.forward (m.gated B img fl tau r) h)) a

/-- Line 101: the value head (output width 1, read at index 0); entry `r`. -/
def Agent.vOut (m : Agent) (B : ℕ) (img fl : ℕ → ℕ → ℚ) (tau : ℕ → ℚ) : ℕ → ℚ :=
  fun r => m.vHead2.forward (fun h => leakyRelu (m.vHead1.forward (m.gated B img fl tau r) h)) 0

/-- Lines 77-105, `Agent.forward`: returns the dueling combination
`Q = V + A - A.mean(dim=-1)` of shape `(B * num_quantiles, n_actions)` together
with the `tau` that was used.  `B` is the batch size of the input tensors and
`rng` the stream of uniform draws consumed only when `tau` is `None`. -/
def Agent.forward (m : Agent) (B : ℕ) (img fl : ℕ → ℕ → ℚ) (numQuantiles : ℕ)
    (tau : Option (ℕ → ℚ)) (rng : ℕ → ℚ) : (ℕ → ℕ → ℚ) × (ℕ → ℚ) :=
  (fun r a =>
      m.vOut B img fl (tauUsed tau rng) r + m.aOut B img fl (tauUsed tau rng) r a
        - (∑ a2 in Finset.range m.nActions, m.aOut B img fl (tauUsed tau rng) r a2) / m.nActions,
   tauUsed tau rng)

/-- Number of uniform draws `Agent.forward` consumes from the sampler: the
`tau = None` branch fills a `(B * num_quantiles, 1)` tensor, the other branch
draws nothing. -/
def tauDrawCount (B numQuantiles : ℕ) (tau : Option (ℕ → ℚ)) : ℕ :=
  match tau with
  | none => B * numQuantiles
  | some _ => 0

/-- The sampler stream after `k` draws have been consumed; a second,
consecutive forward pass reads the stream advanced by the first pass's
`tauDrawCount`. -/
def advance (rng : ℕ → ℚ) (k : ℕ) : ℕ → ℚ := fun n => rng (n + k)

/-- Lines 107-111, `Agent.reset_noise`: regenerates the cached noise of the
four noisy layers; `f` is the sign-preserving square-root transform. -/
def Agent.resetNoise (m : Agent) (f : ℚ → ℚ) (ns : AgentNoise) : Agent :=
  { m with aHead1 := m.aHead1.resetNoise f ns.a1,
           aHead2 := m.aHead2.resetNoise f ns.a2,
           vHead1 := m.vHead1.resetNoise f ns.v1,
           vHead2 := m.vHead2.resetNoise f ns.v2 }

/-- Lines 116-158, the trainer.  The optimizer and gradient scaler are outside
the functional computation (the spec places them out of scope) and are not
fields of the embedding. -/
structure Trainer where
  model : Agent
  model2 : Agent
  batchSize : ℕ
  iqnK : ℕ
  iqnN : ℕ
  iqnKappa : ℚ
  epsilon : ℚ
  gamma : ℚ
  nSteps : ℕ
  alAlpha : ℚ

/-- Lines 132-158, `Trainer.__init__`: plain field assignment, in the source's
parameter order (optimizer and scaler omitted as out of scope). -/
def Trainer.init (model model2 : Agent) (batchSize iqnK iqnN : ℕ)
    (iqnKappa epsilon gamma : ℚ) (nSteps : ℕ) (alAlpha : ℚ) : Trainer :=
  ⟨model, model2, batchSize, iqnK, iqnN, iqnKappa, epsilon, gamma, nSteps, alAlpha⟩

/-- One sampled batch of transitions (lines 164-177), as functions of the
batch-item index; plus the importance-sampling weights. -/
structure BatchData where
  stateImg : ℕ → ℕ → ℚ
  stateFloat : ℕ → ℕ → ℚ
  actions : ℕ → ℕ
  rewards : ℕ → ℚ
  done : ℕ → Bool
  nextStateImg : ℕ → ℕ → ℚ
  nextStateFloat : ℕ → ℕ → ℚ
  isWeights : ℕ → ℚ

/-- Line 168: `actions = torch.as_tensor(np.array([...]), dtype=torch.int)` —
a 1-dimensional int32 tensor of the taken actions. -/
def actionsTensor (data : BatchData) : IndexTensor := ⟨1, DType.int32, data.actions⟩

/-- Line 185: `actions_n = actions[:, None].repeat([iqn_n, 1])` — rank 2 after
`[:, None]`, replicated across the quantile axis, but still int32. -/
def actionsNTensor (data : BatchData) (B : ℕ) : IndexTensor :=
  ⟨2, DType.int32, fun r => data.actions (r % B)⟩

/-- All inputs of one `train_on_batch` call: the trainer, the sampled batch,
the square-root noise transform, the three factorized-noise draws for the
three `reset_noise()` calls (lines 186, 201, 220, in program order) and the
two uniform streams for the two `tau=None` forward passes (lines 187, 202). -/
structure TrainStepInput where
  t : Trainer
  data : BatchData
  f : ℚ → ℚ
  noise1 : AgentNoise
  noise2 : AgentNoise
  noise3 : AgentNoise
  rng1 : ℕ → ℚ
  rng2 : ℕ → ℚ

/-- Line 186: the online model after the first `reset_noise()`. -/
def modelA (s : TrainStepInput) : Agent := s.t.model.resetNoise s.f s.noise1

/-- Line 187: `q_stpo_alla`, the online model's next-state pass with `iqn_n`
quantiles and freshly sampled `tau`; shape `(B * iqn_n, n_actions)`. -/
def qStpoAlla (s : TrainStepInput) (B : ℕ) : ℕ → ℕ → ℚ :=
  ((modelA s).forward B s.data.nextStateImg s.data.nextStateFloat s.t.iqnN none s.rng1).1

/-- Lines 189-191: reshape to `(iqn_n, B, n_actions)` and average over the
quantile axis (row `q * B + b` is quantile `q` of batch item `b`). -/
def qStpoMean (s : TrainStepInput) (B : ℕ) : ℕ → ℕ → ℚ := fun b a =>
  (∑ q in Finset.range s.t.iqnN, qStpoAlla s B (q * B + b) a) / s.t.iqnN

/-- Line 194: `a_tpo`, the double-DQN action choice `argmax` per batch item. -/
def aTpo (s : TrainStepInput) (B : ℕ) : ℕ → ℕ := fun b =>
  npArgmax s.t.model.nActions (qStpoMean s B b)

/-- Line 199: `a_tpo` replicated across the quantile axis. -/
def aTpoN (s : TrainStepInput) (B : ℕ) : ℕ → ℕ := fun r => aTpo s B (r % B)

/-- Lines 194 and 199 as an index tensor: `torch.argmax` yields int64, and
`a_tpo[:, None].repeat(...)` is rank 2 — the one gather index of this step
that `torch.gather` accepts. -/
def aTpoTensor (s : TrainStepInput) (B : ℕ) : IndexTensor := ⟨2, DType.int64, aTpoN s B⟩

/-- Line 201: the target model after its `reset_noise()`. -/
def model2A (s : TrainStepInput) : Agent := s.t.model2.resetNoise s.f s.noise2

/-- Line 202: the target network's next-state pass, sampling its own `tau`. -/
def targetPass (s : TrainStepInput) (B : ℕ) : (ℕ → ℕ → ℚ) × (ℕ → ℚ) :=
  (model2A s).forward B s.data.nextStateImg s.data.nextStateFloat s.t.iqnN none s.rng2

/-- Line 202: `q_stpot_alla`, shape `(B * iqn_n, n_actions)`. -/
def qStpotAlla (s : TrainStepInput) (B : ℕ) : ℕ → ℕ → ℚ := (targetPass s B).1

/-- Line 202: the `tau` sampled by the target network's pass. -/
def tauStar (s : TrainStepInput) (B : ℕ) : ℕ → ℚ := (targetPass s B).2

/-- Line 205: `q_stpot_atpot`, the target-network quantile values gathered at
the double-DQN action. -/
def qStpotAtpot (s : TrainStepInput) (B : ℕ) : ℕ → ℚ := fun r =>
  qStpotAlla s B r (aTpoN s B r)

/-- Lines 209-211: quantile-average of the target network's next-state values
per action. -/
def qStpotMean (s : TrainStepInput) (B : ℕ) : ℕ → ℕ → ℚ := fun b a =>
  (∑ q in Finset.range s.t.iqnN, qStpotAlla s B (q * B + b) a) / s.t.iqnN

/-- Line 213: `v_stpot`, the per-item max over actions of `qStpotMean`. -/
def vStpot (s : TrainStepInput) (B : ℕ) : ℕ → ℚ := fun b =>
  tmax s.t.model.nActions (qStpotMean s B b)

/-- Line 220: the online model after its second `reset_noise()`. -/
def modelB (s : TrainStepInput) : Agent := (modelA s).resetNoise s.f s.noise3

/-- Line 221: the gradient-tracked online pass on the current state, passing
the target pass's `tau` explicitly (`tau=tau`). -/
def onlinePass (s : TrainStepInput) (B : ℕ) : (ℕ → ℕ → ℚ) × (ℕ → ℚ) :=
  (modelB s).forward B s.data.stateImg s.data.stateFloat s.t.iqnN (some (tauStar s B)) s.rng2

/-- Line 221: `outputs`, shape `(B * iqn_n, n_actions)`. -/
def outputs (s : TrainStepInput) (B : ℕ) : ℕ → ℕ → ℚ := (onlinePass s B).1

/-- Lines 226-228: `q_s_alla`, quantile-average of the online current-state
values per action. -/
def qSAlla (s : TrainStepInput) (B : ℕ) : ℕ → ℕ → ℚ := fun b a =>
  (∑ q in Finset.range s.t.iqnN, outputs s B (q * B + b) a) / s.t.iqnN

/-- Line 232: `v_s`, the per-item max over actions of `qSAlla`. -/
def vS (s : TrainStepInput) (B : ℕ) : ℕ → ℚ := fun b => tmax s.t.model.nActions (qSAlla s B b)

/-- Line 236, the target formula, as a function of the tensors it combines:
`torch.where(done, rewards, rewards + gamma^n_steps * q_next) - alpha * min(vs - qsa, vn - qna)`
per flat row `r` (the `(B, 1)` tensors `rewards`, `done` and the PAL minimum
are replicated across the quantile axis, hence indexed at `r % B`; `qNext` is
already `(B * iqn_n, 1)`). -/
def palTarget (B : ℕ) (γ α : ℚ) (n : ℕ) (rewards : ℕ → ℚ) (done : ℕ → Bool)
    (qNext vs qsa vn qna : ℕ → ℚ) (r : ℕ) : ℚ :=
  (if done (r % B) then rewards (r % B) else rewards (r % B) + γ ^ n * qNext r)
    - α * min (vs (r % B) - qsa (r % B)) (vn (r % B) - qna (r % B))

/-- Line 236: the training step's `outputs_target` as a function of the three
gathered tensors line 236 would consume — `qNextG` for `q_stpot_atpot`
(line 205), `qSAG` for `q_s_a` (line 230), `qStpotAG` for `q_stpot_a`
(line 215).  The gathers of lines 215 and 230 raise unconditionally (see
`torchGather` and `actionsTensor`), so no execution materializes these
tensors; this definition denotes what the line would compute. -/
def outputsTargetOf (s : TrainStepInput) (B : ℕ) (qNextG qSAG qStpotAG : ℕ → ℚ) : ℕ → ℚ :=
  palTarget B s.t.gamma s.t.alAlpha s.t.nSteps s.data.rewards s.data.done
    qNextG (vS s B) qSAG (vStpot s B) qStpotAG

/-- Lines 238-240: a `(B * iqn_n, 1)` target tensor reshaped to `(iqn_n, B, 1)`
and transposed to `(B, iqn_n, 1)`; entry `(b, i)` for target-quantile index
`i`. -/
def targetBIOf (B : ℕ) (tgt : ℕ → ℚ) : ℕ → ℕ → ℚ := fun b i => tgt (i * B + b)

/-- Lines 247-249: a gathered prediction tensor reshaped to `(iqn_n, B, 1)` and
transposed to `(B, iqn_n, 1)`; entry `(b, j)` for predicted-quantile index
`j`. -/
def predBJOf (B : ℕ) (outG : ℕ → ℚ) : ℕ → ℕ → ℚ := fun b j => outG (j * B + b)

/-- Line 251: the full cross-quantile error tensor
`TD_Error = outputs_target[:, :, None, :] - outputs[:, None, :, :]` of shape
`(B, iqn_n, iqn_n, 1)`, as a function of the target and prediction tensors;
entry `(b, i, j)`. -/
def tdError (target pred : ℕ → ℕ → ℚ) : ℕ → ℕ → ℕ → ℚ := fun b i j =>
  target b i - pred b j

/-- Lines 254-258: elementwise Huber with threshold `kappa`:
`0.5 * x^2` if `|x| ≤ kappa`, else `kappa * (|x| - 0.5 * kappa)`. -/
def huber (κ x : ℚ) : ℚ := if |x| ≤ κ then 1 / 2 * x ^ 2 else κ * (|x| - 1 / 2 * κ)

/-- Lines 259-261: `tau` reshaped to `(iqn_n, B, 1)`, transposed to
`(B, iqn_n, 1)` and expanded along the target-quantile axis; it therefore
depends only on `(b, j)`, the predicted-quantile index. -/
def tauBJ (s : TrainStepInput) (B : ℕ) : ℕ → ℕ → ℚ := fun b j => tauStar s B (j * B + b)

/-- Line 263: the pinball weighting `where(TD < 0, 1 - tau, tau) * huber / kappa`
over given tau, target and prediction tensors; entry `(b, i, j)`. -/
def pinLoss (κ : ℚ) (tauB target pred : ℕ → ℕ → ℚ) : ℕ → ℕ → ℕ → ℚ := fun b i j =>
  (if tdError target pred b i j < 0 then 1 - tauB b j else tauB b j)
    * huber κ (tdError target pred b i j) / κ

/-- Line 264: `torch.sum(loss, dim=2)` — the sum over axis 2, which indexes the
predicted quantile `j`; shape `(B, iqn_n, 1)`. -/
def lossSumJ (N : ℕ) (κ : ℚ) (tauB target pred : ℕ → ℕ → ℚ) : ℕ → ℕ → ℚ := fun b i =>
  ∑ j in Finset.range N, pinLoss κ tauB target pred b i j

/-- Lines 265-266: `torch.mean(loss, dim=1)` — the mean over axis 1, which
indexes the target quantile `i` — then `loss[:, 0]`: one scalar per batch
item. -/
def lossPerItem (N : ℕ) (κ : ℚ) (tauB target pred : ℕ → ℕ → ℚ) : ℕ → ℚ := fun b =>
  (∑ i in Finset.range N, lossSumJ N κ tauB target pred b i) / N

/-- Line 267: `total_loss = torch.sum(is_weights * loss)`, as a function of the
four gathered tensors the loss would consume. -/
def totalLoss (s : TrainStepInput) (B : ℕ) (qNextG qSAG qStpotAG outG : ℕ → ℚ) : ℚ :=
  ∑ b in Finset.range B,
    s.data.isWeights b
      * lossPerItem s.t.iqnN s.t.iqnKappa (tauBJ s B)
          (targetBIOf B (outputsTargetOf s B qNextG qSAG qStpotAG)) (predBJOf B outG) b

/-- The training step of lines 160-267 with the partiality of its tensor
operations explicit, in program order.  The four gathers go through
`torchGather`, which validates rank, dtype and range exactly as torch does;
the gather of line 215 receives the 1-D int32 `actions` tensor of line 168
where a rank-2 int64 index is required, so it is `none` for every input and
the step never completes (see `c6_gather_crash`). -/
def trainOnBatchChecked (s : TrainStepInput) (B : ℕ) : Option ℚ :=
  -- reshapes to `(iqn_n, batch_size, n_actions)` (lines 189, 209, 226, 238,
  -- 247, 259): the flat sizes `B * iqn_n * width` must match the declared ones
  if ¬ (s.t.batchSize = B ∧ s.t.model2.nActions = s.t.model.nActions) then none
  -- means over the quantile axis (lines 191, 211, 228) and the final mean over
  -- dim 1 (line 265) divide by `iqn_n`, which over ℚ must not be zero
  else if ¬ 0 < s.t.iqnN then none
  -- argmax / max over the action axis (lines 194, 213, 232) raise on an empty
  -- axis, and `A.mean(dim=-1)` inside `forward` divides by `n_actions`
  else if ¬ 0 < s.t.model.nActions then none
  else
    -- line 205: gather at the rank-2 int64 argmax index (valid when in range)
    (torchGather 2 (s.t.iqnN * B) s.t.model.nActions (qStpotAlla s B) (aTpoTensor s B)).bind
      fun qNextG =>
    -- line 215: gather from the `(B, n_actions)` mean with the 1-D int32
    -- `actions` tensor — raises unconditionally
    (torchGather 2 B s.t.model.nActions (qStpotMean s B) (actionsTensor s.data)).bind
      fun qStpotAG =>
    -- line 230: the same index defect
    (torchGather 2 B s.t.model.nActions (qSAlla s B) (actionsTensor s.data)).bind
      fun qSAG =>
    -- line 245: `actions_n` is rank 2 but int32 — raises too
    (torchGather 2 (s.t.iqnN * B) s.t.model.nActions (outputs s B) (actionsNTensor s.data B)).bind
      fun outG =>
    -- line 263 divides by `kappa`
    if s.t.iqnKappa = 0 then none
    else some (totalLoss s B qNextG qSAG qStpotAG outG)

/-- Line 276-285 condition `if self.epsilon > 0`: the online model used by
`get_exploration_action`, with noise reset only in the exploring case. -/
def Trainer.explorationModel (t : Trainer) (f : ℚ → ℚ) (ns : AgentNoise) : Agent :=
  if 0 < t.epsilon then t.model.resetNoise f ns else t.model

/-- Line 285: `q_values`, the online network evaluated on the single
observation with `iqn_k` quantiles and fresh `tau`, averaged over the quantile
axis. -/
def Trainer.explorationQValues (t : Trainer) (img fl : ℕ → ℚ) (rng : ℕ → ℚ)
    (f : ℚ → ℚ) (ns : AgentNoise) : ℕ → ℚ := fun a =>
  (∑ r in Finset.range t.iqnK,
      ((t.explorationModel f ns).forward 1 (fun _ => img) (fun _ => fl) t.iqnK none rng).1 r a)
    / t.iqnK

/-- Lines 275-290, `Trainer.get_exploration_action`: with probability `epsilon`
(the uniform draw `rRand`) a random action (the draw `draw`, reduced by
`randrange`) flagged non-greedy, otherwise the argmax action flagged greedy;
both branches carry `np.max(q_values)`. -/
def Trainer.getExplorationAction (t : Trainer) (img fl : ℕ → ℚ) (rng : ℕ → ℚ)
    (f : ℚ → ℚ) (ns : AgentNoise) (rRand : ℚ) (draw : ℕ) : ℕ × Bool × ℚ :=
  if rRand < t.epsilon then
    (randrange 0 t.model.nActions draw, false,
     tmax t.model.nActions (t.explorationQValues img fl rng f ns))
  else
    (npArgmax t.model.nActions (t.explorationQValues img fl rng f ns), true,
     tmax t.model.nActions (t.explorationQValues img fl rng f ns))

/-- A noisy layer with constant mean weight `c`, everything else zero. -/
def constLinear (c : ℚ) (d : ℕ) : NoisyLinear :=
  ⟨d, fun _ _ => c, fun _ _ => 0, fun _ => 0, fun _ => 0, fun _ _ => 0, fun _ => 0⟩

/-- A zero factorized-noise draw for one layer. -/
def zeroLayerNoise : LayerNoise := ⟨fun _ => 0, fun _ => 0⟩

/-- Zero noise draws for all four layers. -/
def zeroAgentNoise : AgentNoise := ⟨zeroLayerNoise, zeroLayerNoise, zeroLayerNoise, zeroLayerNoise⟩

/-- A concrete two-action agent with zero-weight output heads (the spec's
tied-values scenario): every Q value is 0. -/
def testAgent : Agent :=
  { imgHead := fun _ _ => 1
    floatFeatureExtractor := fun _ _ => 0
    convHeadOutputDim := 1
    iqnFcW := fun _ _ => 1
    iqnFcB := fun _ => 0
    aHead1 := constLinear 1 1
    aHead2 := constLinear 0 1
    vHead1 := constLinear 1 1
    vHead2 := constLinear 0 1
    iqnEmbeddingDimension := 1
    nActions := 2
    cosPi := fun x => x
    floatInputsMean := fun _ => 0
    floatInputsStd := fun _ => 1 }

/-- The test agent with `n_actions = 0`, an invalid configuration. -/
def agentZeroActions : Agent := { testAgent with nActions := 0 }

/-- A rational stand-in for `x ↦ cos (π * x)` that agrees with the real
function at the two quantile fractions the counterexample draws
(`cos (π/2) = 0`, `cos (π/3) = 1/2`). -/
def cosSample : ℚ → ℚ := fun x => if x = 1 / 2 then 0 else if x = 1 / 3 then 1 / 2 else 1

/-- A concrete one-action agent whose output depends on `tau` through the
quantile gate. -/
def cexAgent : Agent :=
  { imgHead := fun _ _ => 1
    floatFeatureExtractor := fun _ _ => 0
    convHeadOutputDim := 1
    iqnFcW := fun _ _ => 1
    iqnFcB := fun _ => 0
    aHead1 := constLinear 1 1
    aHead2 := constLinear 1 1
    vHead1 := constLinear 1 1
    vHead2 := constLinear 1 1
    iqnEmbeddingDimension := 1
    nActions := 1
    cosPi := cosSample
    floatInputsMean := fun _ => 0
    floatInputsStd := fun _ => 1 }

/-- A concrete sampler stream: first draw `1/2`, then `1/3`. -/
def cexRng : ℕ → ℚ := fun n => if n = 0 then 1 / 2 else 1 / 3

/-- A concrete single-pixel image batch. -/
def cexImg : ℕ → ℕ → ℚ := fun _ _ => 256

/-- A concrete float-input batch. -/
def cexFloat : ℕ → ℕ → ℚ := fun _ _ => 0

/-- A concrete trainer with `epsilon = 0` (evaluation mode), unit quantile
counts and `kappa = 1`. -/
def testTrainer : Trainer :=
  Trainer.init testAgent testAgent 1 1 1 1 0 (1 / 2) 1 (1 / 2)

/-- A concrete well-formed batch of one `done = true` transition. -/
def testBatch : BatchData :=
  { stateImg := fun _ _ => 128
    stateFloat := fun _ _ => 0
    actions := fun _ => 0
    rewards := fun _ => 1
    done := fun _ => true
    nextStateImg := fun _ _ => 128
    nextStateFloat := fun _ _ => 0
    isWeights := fun _ => 1 }

/-- A concrete full training-step input. -/
def testStep : TrainStepInput :=
  { t := testTrainer
    data := testBatch
    f := fun q => q
    noise1 := zeroAgentNoise
    noise2 := zeroAgentNoise
    noise3 := zeroAgentNoise
    rng1 := fun _ => 1 / 2
    rng2 := fun _ => 1 / 2 }

/-- A constant Bool batch flag. -/
def doneTrue : ℕ → Bool := fun _ => true

/-- A constant rational tensor. -/
def constQ (c : ℚ) : ℕ → ℚ := fun _ => c

/-- A constant two-index rational tensor. -/
def constQ2 (c : ℚ) : ℕ → ℕ → ℚ := fun _ _ => c

/-- A constant natural tensor (a batch of identical actions). -/
def constN (k : ℕ) : ℕ → ℕ := fun _ => k

/-- A concrete single observation image. -/
def wImg : ℕ → ℚ := fun _ => 128

/-- A concrete single observation float vector. -/
def wFl : ℕ → ℚ := fun _ => 0

/-- A concrete constant sampler stream. -/
def wRng : ℕ → ℚ := fun _ => 1 / 2

/-- A concrete noise transform. -/
def wF : ℚ → ℚ := fun q => q

/-- Base case of `tmax`. -/
theorem tmax_zero (f : ℕ → ℚ) : tmax 0 f = f 0 := rfl

/-- Unfolding recurrence of `tmax`. -/
theorem tmax_succ (n : ℕ) (f : ℕ → ℚ) : tmax (n + 1) f = max (tmax n f) (f n) := by
  unfold tmax
  rw [List.range_succ, List.map_append, List.foldl_append]
  simp

/-- Every listed value is at most the `tmax`. -/
theorem le_tmax (n : ℕ) (f : ℕ → ℚ) (i : ℕ) (h : i < n) : f i ≤ tmax n f := by
  induction n with
  | zero => exact absurd h (Nat.not_lt_zero i)
  | succ m ih =>
    rw [tmax_succ]
    rcases Nat.lt_succ_iff_lt_or_eq.mp h with h2 | h2
    · exact le_trans (ih h2) (le_max_left _ _)
    · subst h2; exact le_max_right _ _

/-- Base case of `npArgmax`. -/
theorem npArgmax_zero (f : ℕ → ℚ) : npArgmax 0 f = 0 := rfl

/-- Unfolding recurrence of `npArgmax`. -/
theorem npArgmax_succ (n : ℕ) (f : ℕ → ℚ) :
    npArgmax (n + 1) f = if f (npArgmax n f) < f n then n else npArgmax n f := by
  unfold npArgmax
  rw [List.range_succ, List.foldl_append]
  simp

/-- The argmax index is within range. -/
theorem npArgmax_lt (n : ℕ) (f : ℕ → ℚ) (h : 0 < n) : npArgmax n f < n := by
  induction n with
  | zero => exact absurd h (lt_irrefl 0)
  | succ m ih =>
    rw [npArgmax_succ]
    split
    · exact Nat.lt_succ_self m
    · rcases Nat.eq_zero_or_pos m with hm | hm
      · subst hm; rw [npArgmax_zero]; exact Nat.zero_lt_one
      · exact Nat.lt_succ_of_lt (ih hm)

/-- The argmax attains the maximum. -/
theorem f_npArgmax (n : ℕ) (f : ℕ → ℚ) : f (npArgmax n f) = tmax n f := by
  induction n with
  | zero => rfl
  | succ m ih =>
    rw [npArgmax_succ, tmax_succ]
    split
    · next hlt =>
      rw [← ih]
      exact (max_eq_right (le_of_lt hlt)).symm
    · next hge =>
      rw [← ih]
      exact (max_eq_left (not_lt.mp hge)).symm

/-- Every index before the argmax is strictly smaller: ties break low. -/
theorem npArgmax_min_lt (n : ℕ) (f : ℕ → ℚ) :
    ∀ i, i < npArgmax n f → f i < f (npArgmax n f) := by
  induction n with
  | zero =>
    intro i h
    rw [npArgmax_zero] at h
    exact absurd h (Nat.not_lt_zero i)
  | succ m ih =>
    intro i h
    rw [npArgmax_succ] at h ⊢
    by_cases hc : f (npArgmax m f) < f m
    · rw [if_pos hc] at h ⊢
      calc f i ≤ tmax m f := le_tmax m f i h
        _ = f (npArgmax m f) := (f_npArgmax m f).symm
        _ < f m := hc
    · rw [if_neg hc] at h ⊢
      exact ih i h

/-- The argmax satisfies the `np.argmax` contract. -/
theorem npArgmax_isFirstMax (n : ℕ) (f : ℕ → ℚ) (h : 0 < n) :
    isFirstMax n f (npArgmax n f) :=
  ⟨npArgmax_lt n f h, f_npArgmax n f, fun i hi => npArgmax_min_lt n f i hi⟩

/-- The `tmax` satisfies the `np.max` contract. -/
theorem tmax_isMaxOf (n : ℕ) (f : ℕ → ℚ) (h : 0 < n) : isMaxOf n f (tmax n f) :=
  ⟨fun i hi => le_tmax n f i hi, ⟨npArgmax n f, npArgmax_lt n f h, f_npArgmax n f⟩⟩

/-- Subtracting the mean makes the sum vanish (exactly, over ℚ). -/
theorem sum_sub_mean (n : ℕ) (g : ℕ → ℚ) :
    (∑ a in Finset.range n, (g a - (∑ b in Finset.range n, g b) / n)) = 0 := by
  rw [Finset.sum_sub_distrib, Finset.sum_const, Finset.card_range, nsmul_eq_mul]
  rcases eq_or_ne n 0 with h | h
  · subst h; simp
  · have h2 : (n : ℚ) ≠ 0 := Nat.cast_ne_zero.mpr h
    rw [mul_comm, div_mul_cancel₀ _ h2, sub_self]

/-- Gathering with the `actions` tensor of line 168 raises for every input
tensor: the index is 1-dimensional (and int32) where `torch.gather` requires a
same-rank int64 index.  This is the op executed at lines 215 and 230. -/
theorem actionsTensor_gather_none (rows width : ℕ) (input : ℕ → ℕ → ℚ) (data : BatchData) :
    torchGather 2 rows width input (actionsTensor data) = none := by
  have h : ¬ ((actionsTensor data).rank = 2 ∧ (actionsTensor data).dtype = DType.int64
      ∧ (∀ r, r < rows → (actionsTensor data).val r < width)) := by
    rintro ⟨h1, -, -⟩
    have h2 : (1 : ℕ) = 2 := h1
    exact absurd h2 (by decide)
  unfold torchGather
  rw [if_neg h]

/-- Gathering with the `actions_n` tensor of line 185 raises for every input
tensor: the index has the right rank but dtype int32, and `torch.gather`
requires int64.  This is the op executed at line 245. -/
theorem actionsNTensor_gather_none (rows width : ℕ) (input : ℕ → ℕ → ℚ) (data : BatchData)
    (B : ℕ) :
    torchGather 2 rows width input (actionsNTensor data B) = none := by
  have h : ¬ ((actionsNTensor data B).rank = 2 ∧ (actionsNTensor data B).dtype = DType.int64
      ∧ (∀ r, r < rows → (actionsNTensor data B).val r < width)) := by
    rintro ⟨-, h2, -⟩
    have h3 : DType.int32 = DType.int64 := h2
    exact absurd h3 (by decide)
  unfold torchGather
  rw [if_neg h]

/-- The one valid gather of the step: line 205's index comes from
`torch.argmax` (int64) and is rank 2 after `[:, None]`, and its entries are
argmax results, hence in range; the gather succeeds and yields
`q_stpot_atpot`. -/
theorem aTpoTensor_gather_some (s : TrainStepInput) (B : ℕ) (hA : 0 < s.t.model.nActions) :
    torchGather 2 (s.t.iqnN * B) s.t.model.nActions (qStpotAlla s B) (aTpoTensor s B)
      = some (qStpotAtpot s B) := by
  have h : (aTpoTensor s B).rank = 2 ∧ (aTpoTensor s B).dtype = DType.int64
      ∧ (∀ r, r < s.t.iqnN * B → (aTpoTensor s B).val r < s.t.model.nActions) :=
    ⟨rfl, rfl, fun r _ => npArgmax_lt _ _ hA⟩
  unfold torchGather
  rw [if_pos h]
  rfl

/-- Claim C1 (code bug): the per-batch-item loss the claim describes is never
formed — the prediction gather of line 245 raises unconditionally, because
`actions_n` (line 185) is int32 where `torch.gather` requires an int64 index
(and the step already raises at line 215) — while the reduction lines 251-266
denote is exactly the claimed one: `TD[i, j] = target[i] - pred[j]`, summed
over the target-quantile axis and averaged over the predicted-quantile axis
(the code's axis order is the transpose, and the two size-`iqn_n` reductions
commute), yielding one scalar per batch item. -/
theorem c1_cross_quantile_loss (s : TrainStepInput) (B N : ℕ) (κ : ℚ)
    (tauB target pred : ℕ → ℕ → ℚ) (b i j : ℕ) :
    torchGather 2 (s.t.iqnN * B) s.t.model.nActions (outputs s B) (actionsNTensor s.data B)
      = none
    ∧ tdError target pred b i j = target b i - pred b j
    ∧ lossPerItem N κ tauB target pred b
        = (∑ j2 in Finset.range N, ∑ i2 in Finset.range N, pinLoss κ tauB target pred b i2 j2)
            / N := by
  refine ⟨actionsNTensor_gather_none _ _ _ _ _, rfl, ?_⟩
  unfold lossPerItem lossSumJ
  rw [Finset.sum_comm]

/-- Claim C3: the value `Q` returned by `Agent.forward` satisfies
`Q = V + (A - mean A)` over actions, so the per-row sum (hence mean) over
actions of `Q - V` is exactly zero. -/
theorem c3_dueling_zero_mean (m : Agent) (B : ℕ) (img fl : ℕ → ℕ → ℚ) (nq : ℕ)
    (tau : Option (ℕ → ℚ)) (rng : ℕ → ℚ) (r a : ℕ) :
    (m.forward B img fl nq tau rng).1 r a
      = m.vOut B img fl (tauUsed tau rng) r + m.aOut B img fl (tauUsed tau rng) r a
        - (∑ a2 in Finset.range m.nActions, m.aOut B img fl (tauUsed tau rng) r a2) / m.nActions
    ∧ (∑ a2 in Finset.range m.nActions,
        ((m.forward B img fl nq tau rng).1 r a2 - m.vOut B img fl (tauUsed tau rng) r)) = 0
    ∧ (∑ a2 in Finset.range m.nActions,
        ((m.forward B img fl nq tau rng).1 r a2 - m.vOut B img fl (tauUsed tau rng) r))
          / m.nActions = 0 := by
  have key : (∑ a2 in Finset.range m.nActions,
      ((m.forward B img fl nq tau rng).1 r a2 - m.vOut B img fl (tauUsed tau rng) r)) = 0 := by
    have h1 : ∀ a2 ∈ Finset.range m.nActions,
        (m.forward B img fl nq tau rng).1 r a2 - m.vOut B img fl (tauUsed tau rng) r
          = m.aOut B img fl (tauUsed tau rng) r a2
            - (∑ b2 in Finset.range m.nActions, m.aOut B img fl (tauUsed tau rng) r b2)
                / m.nActions := by
      intro a2 _
      show m.vOut B img fl (tauUsed tau rng) r + m.aOut B img fl (tauUsed tau rng) r a2
            - (∑ b2 in Finset.range m.nActions, m.aOut B img fl (tauUsed tau rng) r b2)
                / m.nActions
            - m.vOut B img fl (tauUsed tau rng) r = _
      ring
    rw [Finset.sum_congr rfl h1]
    exact sum_sub_mean _ _
  exact ⟨rfl, key, by rw [key, zero_div]⟩

/-- Claim C5 (code bug): no execution of `train_on_batch` reaches the online
pass of line 221 — every call raises at the line 215 gather (the `none` op
below) — so the claimed pairing never occurs in an execution; in the code's
dataflow, however, line 221 does pass the target pass's sampled `tau`
explicitly, and the pinball weight of the loss reads those same fractions. -/
theorem c5_tau_threading (s : TrainStepInput) (B b j : ℕ) :
    torchGather 2 B s.t.model.nActions (qStpotMean s B) (actionsTensor s.data) = none
    ∧ (onlinePass s B).2 = (targetPass s B).2
    ∧ tauBJ s B b j = (targetPass s B).2 (j * B + b) :=
  ⟨actionsTensor_gather_none _ _ _ _, rfl, rfl⟩

/-- Claim C10: when a `tau` tensor is supplied to `Agent.forward`, the `tau`
returned as the second component is exactly the supplied one, unchanged; fresh
quantile fractions (the sampler stream) are used only when `tau` is `None`. -/
theorem c10_tau_passthrough (m : Agent) (B : ℕ) (img fl : ℕ → ℕ → ℚ) (nq : ℕ)
    (t0 : ℕ → ℚ) (rng : ℕ → ℚ) :
    (m.forward B img fl nq (some t0) rng).2 = t0
    ∧ (m.forward B img fl nq none rng).2 = rng := ⟨rfl, rfl⟩

/-- Claim C2 (code bug): no training target is ever constructed — every call
of `train_on_batch` raises at the line 215 gather (the `none` op below),
before line 236 executes, because `actions` (line 168) is a 1-D int32 tensor
where `torch.gather` requires a same-rank int64 index — while the target
formula line 236 denotes is exactly the claimed one: `reward` when `done`,
`reward + gamma^n_steps * q_next_at_a'` otherwise, with the PAL minimum
subtracted in both cases; for a `done = true` row it is the raw reward minus
the correction, invariant under the primed `gamma`, `n_steps` and gathered
next-state values. -/
theorem c2_done_target (s : TrainStepInput) (B : ℕ) (γ α : ℚ) (n : ℕ) (rewards : ℕ → ℚ)
    (done : ℕ → Bool) (qNext vs qsa vn qna : ℕ → ℚ) (r : ℕ) (γ2 : ℚ) (n2 : ℕ)
    (qNext2 : ℕ → ℚ) (hdone : done (r % B) = true) :
    torchGather 2 B s.t.model.nActions (qStpotMean s B) (actionsTensor s.data) = none
    ∧ palTarget B γ α n rewards done qNext vs qsa vn qna r
      = (if done (r % B) then rewards (r % B) else rewards (r % B) + γ ^ n * qNext r)
        - α * min (vs (r % B) - qsa (r % B)) (vn (r % B) - qna (r % B))
    ∧ palTarget B γ α n rewards done qNext vs qsa vn qna r
        = rewards (r % B) - α * min (vs (r % B) - qsa (r % B)) (vn (r % B) - qna (r % B))
    ∧ palTarget B γ2 α n2 rewards done qNext2 vs qsa vn qna r
        = palTarget B γ α n rewards done qNext vs qsa vn qna r := by
  refine ⟨actionsTensor_gather_none _ _ _ _, rfl, ?_, ?_⟩
  · unfold palTarget
    rw [hdone]
    simp
  · unfold palTarget
    rw [hdone]
    simp

/-- Witness for C2 at a concrete `done = true` transition, varying `gamma` from
`1/2` to `1/3`, `n_steps` from 1 to 2 and the gathered next-state values from
0 to 7. -/
theorem c2_witness :
    doneTrue (0 % 1) = true
    ∧ (torchGather 2 1 testStep.t.model.nActions (qStpotMean testStep 1)
          (actionsTensor testStep.data) = none
      ∧ palTarget 1 (1 / 2) (1 / 2) 1 (constQ 1) doneTrue (constQ 0) (constQ 0) (constQ 0)
          (constQ 0) (constQ 0) 0
        = (if doneTrue (0 % 1) then constQ 1 (0 % 1)
           else constQ 1 (0 % 1) + (1 / 2 : ℚ) ^ 1 * constQ 0 0)
          - 1 / 2 * min (constQ 0 (0 % 1) - constQ 0 (0 % 1)) (constQ 0 (0 % 1) - constQ 0 (0 % 1))
      ∧ palTarget 1 (1 / 2) (1 / 2) 1 (constQ 1) doneTrue (constQ 0) (constQ 0) (constQ 0)
            (constQ 0) (constQ 0) 0
          = constQ 1 (0 % 1)
            - 1 / 2 * min (constQ 0 (0 % 1) - constQ 0 (0 % 1)) (constQ 0 (0 % 1) - constQ 0 (0 % 1))
      ∧ palTarget 1 (1 / 3) (1 / 2) 2 (constQ 1) doneTrue (constQ 7) (constQ 0) (constQ 0)
            (constQ 0) (constQ 0) 0
          = palTarget 1 (1 / 2) (1 / 2) 1 (constQ 1) doneTrue (constQ 0) (constQ 0) (constQ 0)
              (constQ 0) (constQ 0) 0) :=
  ⟨by decide,
   c2_done_target testStep 1 (1 / 2) (1 / 2) 1 (constQ 1) doneTrue (constQ 0) (constQ 0)
     (constQ 0) (constQ 0) (constQ 0) 0 (1 / 3) 2 (constQ 7) (by decide)⟩

/-- Claim C4 (code bug): the PAL correction is never computed — the gather of
line 230 (like line 215) raises unconditionally on the 1-D int32 `actions`
tensor (the `none` op below) — while the correction the lines denote is indeed
non-negative whenever `AL_alpha ≥ 0` and the taken action is in range: the
values are maxima over actions of the same per-action tensors from which the
taken-action values are gathered, so both advantage gaps are non-negative, so
is their minimum, and the denoted target never exceeds the uncorrected base
target. -/
theorem c4_pal_nonneg (s : TrainStepInput) (B : ℕ) (γ α : ℚ) (n : ℕ) (rewards : ℕ → ℚ)
    (done : ℕ → Bool) (qNext : ℕ → ℚ) (gCur gNext : ℕ → ℕ → ℚ) (acts : ℕ → ℕ)
    (A r : ℕ) (hα : 0 ≤ α) (ha : acts (r % B) < A) :
    torchGather 2 B s.t.model.nActions (qSAlla s B) (actionsTensor s.data) = none
    ∧ 0 ≤ α * min (tmax A (gCur (r % B)) - gCur (r % B) (acts (r % B)))
          (tmax A (gNext (r % B)) - gNext (r % B) (acts (r % B)))
    ∧ palTarget B γ α n rewards done qNext
        (fun b => tmax A (gCur b)) (fun b => gCur b (acts b))
        (fun b => tmax A (gNext b)) (fun b => gNext b (acts b)) r
        ≤ (if done (r % B) then rewards (r % B)
           else rewards (r % B) + γ ^ n * qNext r) := by
  have hprod : 0 ≤ α * min (tmax A (gCur (r % B)) - gCur (r % B) (acts (r % B)))
      (tmax A (gNext (r % B)) - gNext (r % B) (acts (r % B))) :=
    mul_nonneg hα (le_min (sub_nonneg.mpr (le_tmax _ _ _ ha)) (sub_nonneg.mpr (le_tmax _ _ _ ha)))
  refine ⟨actionsTensor_gather_none _ _ _ _, hprod, ?_⟩
  unfold palTarget
  exact sub_le_self _ hprod

/-- Witness for C4 at concrete tensors: two tied zero-valued actions, action 0
taken, `AL_alpha = 1/2`, on the concrete training step. -/
theorem c4_witness :
    ((0 : ℚ) ≤ 1 / 2)
    ∧ (torchGather 2 1 testStep.t.model.nActions (qSAlla testStep 1)
          (actionsTensor testStep.data) = none
      ∧ 0 ≤ (1 / 2 : ℚ)
            * min (tmax 2 (constQ2 0 (0 % 1)) - constQ2 0 (0 % 1) (constN 0 (0 % 1)))
                (tmax 2 (constQ2 0 (0 % 1)) - constQ2 0 (0 % 1) (constN 0 (0 % 1)))
      ∧ palTarget 1 (1 / 2) (1 / 2) 1 (constQ 1) doneTrue (constQ 0)
          (fun b => tmax 2 (constQ2 0 b)) (fun b => constQ2 0 b (constN 0 b))
          (fun b => tmax 2 (constQ2 0 b)) (fun b => constQ2 0 b (constN 0 b)) 0
          ≤ (if doneTrue (0 % 1) then constQ 1 (0 % 1)
             else constQ 1 (0 % 1) + (1 / 2 : ℚ) ^ 1 * constQ 0 0)) :=
  ⟨by norm_num,
   c4_pal_nonneg testStep 1 (1 / 2) (1 / 2) 1 (constQ 1) doneTrue (constQ 0) (constQ2 0)
     (constQ2 0) (constN 0) 2 0 (by norm_num) (by decide)⟩

/-- Claim C6 (code bug): `train_on_batch` is not well-defined for
`batch_size = 1` (nor for any batch): the gather of line 215 receives the 1-D
int32 `actions` tensor of line 168 where `torch.gather` requires a same-rank
int64 index, so the step raises a RuntimeError on every input — in particular
on the concrete well-formed one-transition batch — and never reaches the loss. -/
theorem c6_gather_crash :
    trainOnBatchChecked testStep 1 = none
    ∧ ∀ (s : TrainStepInput) (B : ℕ), trainOnBatchChecked s B = none := by
  have key : ∀ (s : TrainStepInput) (B : ℕ), trainOnBatchChecked s B = none := by
    intro s B
    unfold trainOnBatchChecked
    by_cases h1 : ¬ (s.t.batchSize = B ∧ s.t.model2.nActions = s.t.model.nActions)
    · rw [if_pos h1]
    · rw [if_neg h1]
      by_cases h2 : ¬ 0 < s.t.iqnN
      · rw [if_pos h2]
      · rw [if_neg h2]
        by_cases h3 : ¬ 0 < s.t.model.nActions
        · rw [if_pos h3]
        · rw [if_neg h3]
          rw [actionsTensor_gather_none]
          cases torchGather 2 (s.t.iqnN * B) s.t.model.nActions (qStpotAlla s B)
              (aTpoTensor s B) with
          | none => rfl
          | some g => rfl
  exact ⟨key testStep 1, key⟩

/-- Claim C7: `get_exploration_action` returns, with probability `epsilon`
(draw `rRand < epsilon`), a random action in `[0, n_actions)` flagged
non-greedy, and otherwise the arg-max of the quantile-averaged action values
flagged greedy with ties broken toward the lowest index; both branches carry
the maximum estimated action value. -/
theorem c7_exploration (t : Trainer) (img fl rng : ℕ → ℚ) (f : ℚ → ℚ) (ns : AgentNoise)
    (rRand : ℚ) (draw : ℕ) (hA : 0 < t.model.nActions) :
    (rRand < t.epsilon →
      t.getExplorationAction img fl rng f ns rRand draw
        = (randrange 0 t.model.nActions draw, false,
           tmax t.model.nActions (t.explorationQValues img fl rng f ns))
      ∧ randrange 0 t.model.nActions draw < t.model.nActions)
    ∧ (¬ rRand < t.epsilon →
      t.getExplorationAction img fl rng f ns rRand draw
        = (npArgmax t.model.nActions (t.explorationQValues img fl rng f ns), true,
           tmax t.model.nActions (t.explorationQValues img fl rng f ns))
      ∧ isFirstMax t.model.nActions (t.explorationQValues img fl rng f ns)
          (npArgmax t.model.nActions (t.explorationQValues img fl rng f ns)))
    ∧ isMaxOf t.model.nActions (t.explorationQValues img fl rng f ns)
        (tmax t.model.nActions (t.explorationQValues img fl rng f ns)) := by
  refine ⟨fun hr => ⟨?_, ?_⟩, fun hr => ⟨?_, ?_⟩, ?_⟩
  · unfold Trainer.getExplorationAction
    rw [if_pos hr]
  · unfold randrange
    simpa using Nat.mod_lt draw hA
  · unfold Trainer.getExplorationAction
    rw [if_neg hr]
  · exact npArgmax_isFirstMax _ _ hA
  · exact tmax_isMaxOf _ _ hA

/-- Witness for C7: the spec's end-to-end scenario — `epsilon = 0`, two actions
tied in value — lands in the greedy branch and returns the arg-max with
lowest-index tie-breaking together with the maximum value. -/
theorem c7_witness :
    (0 < testTrainer.model.nActions)
    ∧ (((0 : ℚ) < testTrainer.epsilon →
          testTrainer.getExplorationAction wImg wFl wRng wF zeroAgentNoise 0 0
            = (randrange 0 testTrainer.model.nActions 0, false,
               tmax testTrainer.model.nActions
                 (testTrainer.explorationQValues wImg wFl wRng wF zeroAgentNoise))
          ∧ randrange 0 testTrainer.model.nActions 0 < testTrainer.model.nActions)
       ∧ (¬ (0 : ℚ) < testTrainer.epsilon →
          testTrainer.getExplorationAction wImg wFl wRng wF zeroAgentNoise 0 0
            = (npArgmax testTrainer.model.nActions
                 (testTrainer.explorationQValues wImg wFl wRng wF zeroAgentNoise), true,
               tmax testTrainer.model.nActions
                 (testTrainer.explorationQValues wImg wFl wRng wF zeroAgentNoise))
          ∧ isFirstMax testTrainer.model.nActions
              (testTrainer.explorationQValues wImg wFl wRng wF zeroAgentNoise)
              (npArgmax testTrainer.model.nActions
                (testTrainer.explorationQValues wImg wFl wRng wF zeroAgentNoise)))
       ∧ isMaxOf testTrainer.model.nActions
           (testTrainer.explorationQValues wImg wFl wRng wF zeroAgentNoise)
           (tmax testTrainer.model.nActions
             (testTrainer.explorationQValues wImg wFl wRng wF zeroAgentNoise))) :=
  ⟨by decide, c7_exploration testTrainer wImg wFl wRng wF zeroAgentNoise 0 0 (by decide)⟩

/-- Counterexample to claim C8 as stated: two consecutive forward passes with
identical inputs (`tau = None`) and no intervening `reset_noise` produce
different outputs, because each pass draws fresh quantile fractions from the
sampler (the second pass reads the stream advanced by the first pass's
`tauDrawCount`). -/
theorem c8_counterexample :
    (cexAgent.forward 1 cexImg cexFloat 1 none cexRng).1 0 0
      ≠ (cexAgent.forward 1 cexImg cexFloat 1 none
          (advance cexRng (tauDrawCount 1 1 none))).1 0 0 := by
  have h1 : (cexAgent.forward 1 cexImg cexFloat 1 none cexRng).1 0 0 = 0 := by
    norm_num [Agent.forward, Agent.vOut, Agent.aOut, Agent.gated, Agent.concatFeat,
      Agent.quantileNet, NoisyLinear.forward, cexAgent, constLinear, leakyRelu, tauUsed,
      cexRng, cexImg, cexFloat, cosSample, Finset.sum_range_succ, Finset.sum_range_zero]
  have h2 : (cexAgent.forward 1 cexImg cexFloat 1 none
      (advance cexRng (tauDrawCount 1 1 none))).1 0 0 = 1 / 2 := by
    norm_num [Agent.forward, Agent.vOut, Agent.aOut, Agent.gated, Agent.concatFeat,
      Agent.quantileNet, NoisyLinear.forward, cexAgent, constLinear, leakyRelu, tauUsed,
      cexRng, cexImg, cexFloat, cosSample, advance, tauDrawCount,
      Finset.sum_range_succ, Finset.sum_range_zero]
  rw [h1, h2]
  norm_num

/-- Claim C8 (amended): a forward pass with an explicitly supplied `tau` is
deterministic on frozen noise — independent of the sampler state — and
`get_exploration_action` with `epsilon = 0` does not reset the online
network's noise (the model is used unchanged); with `tau = None` fresh
quantile fractions are sampled on every pass, so consecutive passes may
differ. -/
theorem c8_frozen_noise (m : Agent) (B : ℕ) (img fl : ℕ → ℕ → ℚ) (nq : ℕ) (t0 : ℕ → ℚ)
    (rng rng2 : ℕ → ℚ) (tr : Trainer) (f : ℚ → ℚ) (ns : AgentNoise)
    (he : ¬ 0 < tr.epsilon) :
    m.forward B img fl nq (some t0) rng = m.forward B img fl nq (some t0) rng2
    ∧ tr.explorationModel f ns = tr.model := by
  refine ⟨rfl, ?_⟩
  unfold Trainer.explorationModel
  rw [if_neg he]

/-- Witness for the amended C8 at a concrete agent and the `epsilon = 0`
trainer. -/
theorem c8_witness :
    (¬ (0 : ℚ) < testTrainer.epsilon)
    ∧ (cexAgent.forward 1 cexImg cexFloat 1 (some wRng) wRng
         = cexAgent.forward 1 cexImg cexFloat 1 (some wRng) cexRng
       ∧ testTrainer.explorationModel wF zeroAgentNoise = testTrainer.model) :=
  ⟨by decide,
   c8_frozen_noise cexAgent 1 cexImg cexFloat 1 wRng wRng cexRng testTrainer wF zeroAgentNoise
     (by decide)⟩

/-- Counterexample to claim C9 as stated: construction with an invalid
configuration (`iqn_k = 0`, `iqn_n = 0`, `kappa = 0`, `n_actions = 0`) does
not fail — it succeeds and stores the invalid values. -/
theorem c9_counterexample :
    (Trainer.init agentZeroActions agentZeroActions 1 0 0 0 0 0 0 0).iqnK = 0
    ∧ (Trainer.init agentZeroActions agentZeroActions 1 0 0 0 0 0 0 0).iqnN = 0
    ∧ (Trainer.init agentZeroActions agentZeroActions 1 0 0 0 0 0 0 0).iqnKappa = 0
    ∧ agentZeroActions.nActions = 0 :=
  ⟨rfl, rfl, rfl, rfl⟩

/-- Claim C9 (amended): construction performs no validation — `Trainer.__init__`
is plain field assignment, so any configuration, valid or not, is stored
unchanged and failure is deferred to later numeric work. -/
theorem c9_init_stores (m m2 : Agent) (bs k n : ℕ) (κ ε γ : ℚ) (nst : ℕ) (α : ℚ) :
    (Trainer.init m m2 bs k n κ ε γ nst α).model = m
    ∧ (Trainer.init m m2 bs k n κ ε γ nst α).model2 = m2
    ∧ (Trainer.init m m2 bs k n κ ε γ nst α).batchSize = bs
    ∧ (Trainer.init m m2 bs k n κ ε γ nst α).iqnK = k
    ∧ (Trainer.init m m2 bs k n κ ε γ nst α).iqnN = n
    ∧ (Trainer.init m m2 bs k n κ ε γ nst α).iqnKappa = κ
    ∧ (Trainer.init m m2 bs k n κ ε γ nst α).epsilon = ε
    ∧ (Trainer.init m m2 bs k n κ ε γ nst α).gamma = γ
    ∧ (Trainer.init m m2 bs k n κ ε γ nst α).nSteps = nst
    ∧ (Trainer.init m m2 bs k n κ ε γ nst α).alAlpha = α :=
  ⟨rfl, rfl, rfl, rfl, rfl, rfl, rfl, rfl, rfl, rfl⟩
